import Mathlib

/-!
Verification of the request-admission and resilience control plane of the
`text_to_image` service, as a shallow embedding of its Python source.

Conventions of the embedding:
* Python `int` is `Int` (unbounded in Python, so no modular wraparound).
* Python `float` values that flow through the formulas verified here are
  modelled as exact rationals (`ℚ`); wherever an individual claim depends
  on exactness of a concrete float computation this is justified in a
  comment next to the definition.
* Fallible code returns `Except`/`Option`.
* ASGI middleware is modelled by explicit message lists: the downstream
  application is an opaque function from the body chunks it receives to
  either an exception or the list of messages it sends.
-/

namespace TextToImage

/-! ## Admission control (`src/application/admission_control.py`) -/

/-- The distinguished error raised by `acquire_or_reject` at capacity
(`application.exceptions.ServiceBusyError`). -/
inductive AdmissionError where
  | serviceBusy
deriving DecidableEq, Repr

/-- `ImageGenerationAdmissionController.acquire_or_reject`, entry section
(lines 97-100): under the counter lock, if the active count has reached the
configured maximum, raise `ServiceBusyError` without incrementing; otherwise
increment the active count by one.  The state is the controller's
`_active_operation_count`; `maxC` is `_maximum_concurrency`. -/
def acquire_or_reject (maxC c : Int) : Except AdmissionError Int :=
  if maxC ≤ c then Except.error AdmissionError.serviceBusy
  else Except.ok (c + 1)

/-- The decrement performed in the `finally` block of `acquire_or_reject`
(lines 104-106). -/
def releaseSlot (c : Int) : Int := c - 1

/-- Events observable on the controller counter: an acquisition attempt
(which may be rejected) or a release by a request leaving the protected
region. -/
inductive AdmissionOp where
  | acquire
  | release
deriving DecidableEq, Repr

/-- Effect of one event on the active count.  A rejected acquisition leaves
the counter unchanged (the code raises before the increment). -/
def stepOp (maxC c : Int) : AdmissionOp → Int
  | AdmissionOp.acquire =>
    match acquire_or_reject maxC c with
    | Except.ok c1 => c1
    | Except.error _ => c
  | AdmissionOp.release => releaseSlot c

/-- All counter values reached along a sequence of events, the starting
value included. -/
def admissionStates (maxC : Int) : Int → List AdmissionOp → List Int
  | c, [] => [c]
  | c, op :: ops => c :: admissionStates maxC (stepOp maxC c op) ops

/-- Well-formed event sequences: every release is performed by a request
that holds a slot, which in the source is guaranteed because the decrement
sits in the `finally` block paired with a successful increment, so a
release can only happen while the count is positive. -/
def validTrace (maxC : Int) : Int → List AdmissionOp → Bool
  | _, [] => true
  | c, AdmissionOp.acquire :: ops => validTrace maxC (stepOp maxC c AdmissionOp.acquire) ops
  | c, AdmissionOp.release :: ops => decide (0 < c) && validTrace maxC (releaseSlot c) ops

/-- Every value in a list of counter states lies in `[0, maxC]`. -/
def boundedBy (maxC : Int) (states : List Int) : Bool :=
  states.all fun s => decide (0 ≤ s ∧ s ≤ maxC)

/-- Outcome of the protected body executed inside the admitted region:
normal completion, an exception, or task cancellation.  In all three cases
Python runs the `finally` block. -/
inductive BodyOutcome where
  | completed
  | raised
  | cancelled
deriving DecidableEq, Repr

/-- One full pass through `acquire_or_reject` used as a context manager:
acquire (possibly rejecting), run the body with the given outcome, then
release in the `finally` block regardless of the outcome.  Returns the
final counter value together with the body's outcome when admitted. -/
def run_admitted (maxC c : Int) (outcome : BodyOutcome) :
    Except AdmissionError (Int × BodyOutcome) :=
  match acquire_or_reject maxC c with
  | Except.error e => Except.error e
  | Except.ok c1 => Except.ok (releaseSlot c1, outcome)

/-! ## Adaptive inference timeout
(`src/application/services/image_generation_service.py`) -/

/-- `_BASELINE_PIXEL_COUNT = 512 * 512` (line 64). -/
def _BASELINE_PIXEL_COUNT : ℚ := 512 * 512

/-- `_CPU_TIMEOUT_MULTIPLIER = 30` (line 70). -/
def _CPU_TIMEOUT_MULTIPLIER : ℚ := 30

/-- `ImageGenerationService._compute_timeout` (lines 327-355).  The Python
arithmetic is on floats; it is modelled exactly on ℚ.  (For the realistic
argument ranges the float computation is itself exact: `w*h` is an integer
below 2^53 and the division is by the power of two 2^18, so `pixel_scale`
and the products are computed without rounding.)  `deviceType` is
`self._device.type`; the multiplier branch fires when it is not `"cuda"`. -/
def compute_timeout (base : ℚ) (deviceType : String)
    (image_width image_height number_of_images : ℕ) : ℚ :=
  let pixel_scale : ℚ := (image_width * image_height : ℕ) / _BASELINE_PIXEL_COUNT
  let timeout := base * number_of_images * pixel_scale
  if deviceType ≠ "cuda" then timeout * _CPU_TIMEOUT_MULTIPLIER else timeout

/-! ## Metrics collector (`src/application/metrics.py`)

Latency samples (float milliseconds) are modelled as ℚ. -/

/-- Line 42 of `metrics.py`. -/
def DEFAULT_MAXIMUM_OBSERVATIONS_PER_ENDPOINT : ℕ := 10000

/-- Model of `collections.deque(maxlen := cap).append x`: the new element
goes to the right; when the deque already holds `cap` elements the leftmost
element is evicted (for `cap = 0` the deque stays empty).  Expressed as one
drop: at most one element can ever be evicted because appends keep
`length ≤ cap`. -/
def dequeAppend (cap : ℕ) (xs : List ℚ) (x : ℚ) : List ℚ :=
  (xs ++ [x]).drop (xs.length + 1 - cap)

/-- Latency part of `MetricsCollector.record_request` (lines 141-146): the
window map is keyed by `"METHOD path"`; a missing key starts from the empty
deque with the configured `maxlen`, then the duration is appended.  The map
`dict[str, deque]` is modelled as a total function defaulting to `[]`. -/
def record_latency_sample (cap : ℕ) (windows : String → List ℚ)
    (latency_key : String) (duration : ℚ) : String → List ℚ :=
  fun k => if k = latency_key then dequeAppend cap (windows k) duration else windows k

/-- The collector's latency state after a sequence of
`record_request`-style events `(latency_key, duration)`, starting from the
freshly constructed collector (all windows empty). -/
def record_all (cap : ℕ) (records : List (String × ℚ)) : String → List ℚ :=
  records.foldl (fun w r => record_latency_sample cap w r.1 r.2) fun _ => []

/-- Round-half-even to an integer, the rounding mode of Python `round`. -/
def roundHalfEvenInt (x : ℚ) : ℤ :=
  if x - Int.floor x < 1 / 2 then Int.floor x
  else if 1 / 2 < x - Int.floor x then Int.floor x + 1
  else if Int.floor x % 2 = 0 then Int.floor x else Int.floor x + 1

/-- Python `round(x, 1)` as used on every reported statistic in
`snapshot()`.  (Python rounds the double nearest to the decimal; on exact
inputs such as the counterexample below the two agree.) -/
def pyRound1 (x : ℚ) : ℚ := (roundHalfEvenInt (x * 10) : ℚ) / 10

/-- The per-endpoint entry of `result["request_latencies"]` built by
`snapshot()` (lines 195-201). -/
structure EndpointLatencyStats where
  count : ℕ
  minimum_milliseconds : ℚ
  maximum_milliseconds : ℚ
  average_milliseconds : ℚ
  ninety_fifth_percentile_milliseconds : ℚ
deriving DecidableEq, Repr

/-- The index computation of lines 190-193:
`min(int(observation_count * 0.95), observation_count - 1)`.  For every
window size the machine can hold, `int(n * 0.95)` on doubles equals
`⌊19n/20⌋`: the double closest to 0.95 exceeds 19/20 by ≈1.1e-17, so the
product `n * 0.95` errs from `0.95n` by far less than its distance to the
next integer (1/20 for n not divisible by 20, half an ulp for multiples of
20), and `int` truncation lands on the exact floor. -/
def percentile_95_index (observation_count : ℕ) : ℕ :=
  min (19 * observation_count / 20) (observation_count - 1)

/-- The statistics `snapshot()` computes for one endpoint's window (lines
178-201): sort a copy of the observations, report rounded minimum
(`sorted[0]`), maximum (`sorted[-1]`), mean and nearest-rank 95th
percentile.  Windows are never empty (one is created only when a sample is
recorded into it, under the same lock), so the empty case returns `none`. -/
def snapshot_latency_stats (obs : List ℚ) : Option EndpointLatencyStats :=
  match obs with
  | [] => none
  | _ :: _ =>
    let observation_count := obs.length
    let sorted_observations := obs.insertionSort (· ≤ ·)
    some
      { count := observation_count
        minimum_milliseconds := pyRound1 (sorted_observations.headD 0)
        maximum_milliseconds := pyRound1 (sorted_observations.getLastD 0)
        average_milliseconds := pyRound1 (sorted_observations.sum / observation_count)
        ninety_fifth_percentile_milliseconds :=
          pyRound1 (sorted_observations.getD (percentile_95_index observation_count) 0) }

/-! ## HTTP middleware (`src/application/middleware.py`)

The ASGI machinery is modelled by explicit message lists.  A middleware
layer's `__call__` becomes a function from the request data it inspects
plus the (opaque) downstream application to the messages the layer lets
through or emits. -/

/-- The machine-readable fields of the JSON error bodies built by the
middleware layers (`{error: {code, message, correlation_id}}`). -/
structure ErrorBody where
  code : String
  correlation_id : String
deriving DecidableEq, Repr

/-- Messages flowing to the ASGI `send` callable, reduced to the fields
the claims are about: `http.response.start` carries the status code and
the optional `x-correlation-id` header; `http.response.body` carries
either one of the middleware error bodies or an opaque application payload
(`none`). -/
inductive AsgiMessage where
  | responseStart (status : ℕ) (correlationHeader : Option String)
  | responseBody (errorBody : Option ErrorBody)
deriving DecidableEq, Repr

def isResponseStart : AsgiMessage → Bool
  | AsgiMessage.responseStart _ _ => true
  | AsgiMessage.responseBody _ => false

/-- How many `http.response.start` messages (response heads) a message
list contains. -/
def countResponseStarts (messages : List AsgiMessage) : ℕ :=
  messages.countP isResponseStart

/-- `bytes.lower()` on an ASCII header name, character by character. -/
def asciiLower (s : String) : String := String.mk (s.data.map Char.toLower)

/-- Decimal digits with accumulator: `none` the moment a non-digit
appears. -/
def parseNatDigitsAux : List Char → ℕ → Option ℕ
  | [], acc => some acc
  | c :: cs, acc =>
    if c.isDigit then parseNatDigitsAux cs (acc * 10 + (c.toNat - 48)) else none

/-- Python `int(header_value)` as used in
`extract_content_length_from_headers`: an optional sign followed by at
least one decimal digit, else a `ValueError` (here `none`).  (Python's
extra leniencies — surrounding whitespace and underscore separators — are
not relied on by any claim.) -/
def parse_python_int (s : String) : Option Int :=
  match s.data with
  | [] => none
  | '-' :: cs =>
    match cs with
    | [] => none
    | _ :: _ => (parseNatDigitsAux cs 0).map fun n => -(n : Int)
  | '+' :: cs =>
    match cs with
    | [] => none
    | _ :: _ => (parseNatDigitsAux cs 0).map fun n => (n : Int)
  | cs => (parseNatDigitsAux cs 0).map fun n => (n : Int)

/-- `extract_content_length_from_headers` (lines 111-130): scan for the
first header whose lowercased name is `content-length` and parse its value
as a Python `int`; a failing parse returns `None` from inside the loop
(no further headers are examined). -/
def extract_content_length_from_headers : List (String × String) → Option Int
  | [] => none
  | (header_name, header_value) :: rest =>
    if asciiLower header_name = "content-length" then parse_python_int header_value
    else extract_content_length_from_headers rest

/-- The guard of line 599:
`declared_content_length is not None and declared_content_length > limit`. -/
def declaredLengthExceeds : Option Int → Int → Bool
  | some n, limit => limit < n
  | none, _ => false

/-- The 413 response emitted by `_send_payload_too_large_response`
(lines 664-707): a start with status 413 (no correlation header — the
correlation identifier travels in the body) followed by the JSON body with
code `payload_too_large`. -/
def payloadTooLargeResponse (correlation_id : String) : List AsgiMessage :=
  [AsgiMessage.responseStart 413 none,
   AsgiMessage.responseBody (some ⟨"payload_too_large", correlation_id⟩)]

/-- What the wrapped `receive` delivered downstream: the body chunks (by
byte length) and the `payload_limit_exceeded` flag. -/
structure GuardedStream where
  delivered : List ℕ
  exceeded : Bool
deriving DecidableEq, Repr

/-- `receive_with_size_tracking` (lines 618-642), applied to the incoming
body chunk stream.  Each chunk adds its length to the running total; the
instant the total exceeds the limit the wrapper delivers a zero-length
final chunk (`more_body = False`) instead of the oversized one, flags the
violation, and downstream reads no further. -/
def guard_receive (limit : Int) : Int → List ℕ → GuardedStream
  | _, [] => ⟨[], false⟩
  | accumulated, chunk :: rest =>
    let accumulated1 := accumulated + chunk
    if limit < accumulated1 then ⟨[0], true⟩
    else
      let r := guard_receive limit accumulated1 rest
      ⟨chunk :: r.delivered, r.exceeded⟩

/-- A downstream ASGI application, abstracted as a function from the body
chunks it receives to either an escaped exception or the messages it
sends. -/
def AsgiApp : Type := List ℕ → Except Unit (List AsgiMessage)

/-- A downstream application whose processing always raises (as parsing a
truncated body typically does). -/
def alwaysRaisingApp : AsgiApp := fun _ => Except.error ()

/-- A downstream application that tolerates its body and sends a fixed
200 response of its own. -/
def fixedResponseApp : AsgiApp := fun _ =>
  Except.ok [AsgiMessage.responseStart 200 none, AsgiMessage.responseBody none]

/-- `RequestPayloadSizeLimitMiddleware.__call__` (lines 578-662).  Returns
the messages this layer sends or lets through, paired with the number of
calls made into the wrapped `receive`, or the exception it re-raises.
Fast path: a declared content length above the limit is rejected with the
413 response before any body is read.  Otherwise the app runs against the
guarded stream; if it raises after the limit was exceeded the 413 response
replaces the failure, if it raises otherwise the exception propagates, and
if it completes its own messages pass through unchanged (even when the
limit was exceeded — the final `if payload_limit_exceeded: pass` block
sends nothing). -/
def payload_middleware_call (limit : Int) (correlation_id : String)
    (headers : List (String × String)) (chunks : List ℕ) (app : AsgiApp) :
    Except Unit (List AsgiMessage × ℕ) :=
  let declared_content_length := extract_content_length_from_headers headers
  if declaredLengthExceeds declared_content_length limit then
    Except.ok (payloadTooLargeResponse correlation_id, 0)
  else
    let stream := guard_receive limit 0 chunks
    match app stream.delivered with
    | Except.error _ =>
      if stream.exceeded then
        Except.ok (payloadTooLargeResponse correlation_id, stream.delivered.length)
      else Except.error ()
    | Except.ok sent => Except.ok (sent, stream.delivered.length)

/-- The 504 response emitted by `_send_request_timeout_response`
(lines 372-412), with code `request_timeout` and the correlation
identifier read from the request scope. -/
def requestTimeoutResponse (correlation_id : String) : List AsgiMessage :=
  [AsgiMessage.responseStart 504 none,
   AsgiMessage.responseBody (some ⟨"request_timeout", correlation_id⟩)]

/-- `RequestTimeoutMiddleware.__call__` (lines 322-370).  `innerSent` are
the messages the inner application sent before completing or — when
`timedOut` — before `asyncio.wait_for` cancelled it; the
`response_headers_already_sent` flag is exactly "some
`http.response.start` flowed through `send_with_header_tracking`".  On a
timeout with no head sent the 504 response is emitted; once a head was
sent the timeout is only logged and nothing further is sent. -/
def timeout_middleware_call (correlation_id : String)
    (innerSent : List AsgiMessage) (timedOut : Bool) : List AsgiMessage :=
  let response_headers_already_sent := 0 < countResponseStarts innerSent
  if timedOut then
    if response_headers_already_sent then innerSent
    else innerSent ++ requestTimeoutResponse correlation_id
  else innerSent

/-- `send_with_correlation_id_and_size_tracking` (lines 206-221), header
part: every `http.response.start` flowing through gets the
`x-correlation-id` header appended. -/
def add_correlation_header (correlation_id : String) : AsgiMessage → AsgiMessage
  | AsgiMessage.responseStart status _ =>
    AsgiMessage.responseStart status (some correlation_id)
  | AsgiMessage.responseBody b => AsgiMessage.responseBody b

/-- The 500 response built in the `except` branch of
`CorrelationIdMiddleware.__call__` (lines 229-257): status 500 with the
`x-correlation-id` header and the JSON body with code
`internal_server_error` and the correlation identifier. -/
def internalServerErrorResponse (correlation_id : String) : List AsgiMessage :=
  [AsgiMessage.responseStart 500 (some correlation_id),
   AsgiMessage.responseBody (some ⟨"internal_server_error", correlation_id⟩)]

/-- The `response_status` tracking of lines 209-211: updated each time an
`http.response.start` flows through; initial value 0. -/
def lastResponseStatus (messages : List AsgiMessage) : ℕ :=
  messages.foldl
    (fun status m =>
      match m with
      | AsgiMessage.responseStart s _ => s
      | AsgiMessage.responseBody _ => status)
    0

/-- Observable outcome of one pass through `CorrelationIdMiddleware`. -/
structure CorrelationOutcome where
  sent : List AsgiMessage
  response_status : ℕ
  metricsRecords : List (String × String × ℕ × ℚ)
  in_flight_after : Int
deriving DecidableEq, Repr

/-- `CorrelationIdMiddleware.__call__` (lines 161-279).  The wrapped inner
chain is abstracted as its outcome: `Except.ok innerSent` when it returns
after sending `innerSent`, `Except.error sentBefore` when an exception
escapes it after it sent `sentBefore` (normally `[]`, since the
application assembles responses fully before sending).  On entry the
in-flight counter is incremented; messages flowing through get the
correlation header; an escaped exception is converted into the 500
`internal_server_error` response and forces `response_status := 500`; the
`finally` block decrements the in-flight counter and records
`(method, path, final_status, duration_ms)` into the metrics collector
exactly once.  `duration_ms` is the measured wall-clock duration, opaque
here. -/
def correlation_middleware_call (correlation_id method path : String)
    (duration_ms : ℚ) (in_flight_before : Int)
    (inner : Except (List AsgiMessage) (List AsgiMessage)) : CorrelationOutcome :=
  match inner with
  | Except.ok innerSent =>
    let sent := innerSent.map (add_correlation_header correlation_id)
    { sent := sent
      response_status := lastResponseStatus sent
      metricsRecords := [(method, path, lastResponseStatus sent, duration_ms)]
      in_flight_after := in_flight_before + 1 - 1 }
  | Except.error sentBefore =>
    { sent := sentBefore.map (add_correlation_header correlation_id) ++
        internalServerErrorResponse correlation_id
      response_status := 500
      metricsRecords := [(method, path, 500, duration_ms)]
      in_flight_after := in_flight_before + 1 - 1 }

end TextToImage

namespace TextToImage

/-! ## Supporting lemmas for the adaptive timeout -/

/-- Closed form of `_compute_timeout`. -/
theorem compute_timeout_eq (base : ℚ) (deviceType : String) (w h n : ℕ) :
    compute_timeout base deviceType w h n =
      base * n * ((w * h : ℕ) / (512 * 512 : ℚ)) *
        (if deviceType = "cuda" then 1 else 30) := by
  by_cases hd : deviceType = "cuda"
  · simp [compute_timeout, _BASELINE_PIXEL_COUNT, _CPU_TIMEOUT_MULTIPLIER, hd]
  · simp [compute_timeout, _BASELINE_PIXEL_COUNT, _CPU_TIMEOUT_MULTIPLIER, hd]

/-! ## Supporting lemmas for the admission controller -/

theorem stepOp_acquire_of_lt {maxC c : Int} (h : c < maxC) :
    stepOp maxC c AdmissionOp.acquire = c + 1 := by
  simp [stepOp, acquire_or_reject, not_le.mpr h]

theorem stepOp_acquire_of_ge {maxC c : Int} (h : maxC ≤ c) :
    stepOp maxC c AdmissionOp.acquire = c := by
  simp [stepOp, acquire_or_reject, h]

theorem admissionStates_bounded (maxC : Int) :
    ∀ (ops : List AdmissionOp) (c : Int), 0 ≤ c → c ≤ maxC →
      validTrace maxC c ops = true → boundedBy maxC (admissionStates maxC c ops) = true
  | [], c, h0, h1, _ => by
    simp [admissionStates, boundedBy, h0, h1]
  | AdmissionOp.acquire :: ops, c, h0, h1, hv => by
    have hv1 : validTrace maxC (stepOp maxC c AdmissionOp.acquire) ops = true := by
      simpa [validTrace] using hv
    rcases lt_or_ge c maxC with hlt | hge
    · have hstep : stepOp maxC c AdmissionOp.acquire = c + 1 := stepOp_acquire_of_lt hlt
      have ih := admissionStates_bounded maxC ops (c + 1)
        (by omega) (by omega) (by rw [← hstep]; exact hv1)
      simp [admissionStates, boundedBy, h0, h1] at ih ⊢
      rw [hstep]
      exact ih
    · have hstep : stepOp maxC c AdmissionOp.acquire = c := stepOp_acquire_of_ge hge
      have ih := admissionStates_bounded maxC ops c h0 h1 (by rw [← hstep]; exact hv1)
      simp [admissionStates, boundedBy, h0, h1] at ih ⊢
      rw [hstep]
      exact ih
  | AdmissionOp.release :: ops, c, h0, h1, hv => by
    have hpos : 0 < c := by
      by_contra hneg
      simp [validTrace, hneg] at hv
    have hv1 : validTrace maxC (releaseSlot c) ops = true := by
      simp [validTrace, hpos] at hv
      exact hv
    have ih := admissionStates_bounded maxC ops (releaseSlot c)
      (by simp [releaseSlot]; omega) (by simp [releaseSlot]; omega) hv1
    simp [admissionStates, boundedBy, h0, h1] at ih ⊢
    simpa [stepOp] using ih

/-- C1: with `N = maximum_concurrency`, `acquire_or_reject` rejects with
`ServiceBusyError` and leaves the count unchanged whenever the active count
is at least `N`, otherwise increments it by exactly one; consequently along
any well-formed event sequence starting from the initial count 0 the active
count satisfies `0 ≤ active_count ≤ N` at all times, so at most `N`
admissions are simultaneously active. -/
theorem admission_controller_bounds (maxC c : Int) (ops : List AdmissionOp) :
    (maxC ≤ c → acquire_or_reject maxC c = Except.error AdmissionError.serviceBusy ∧
      stepOp maxC c AdmissionOp.acquire = c) ∧
    (c < maxC → acquire_or_reject maxC c = Except.ok (c + 1)) ∧
    (0 ≤ maxC → validTrace maxC 0 ops = true →
      boundedBy maxC (admissionStates maxC 0 ops) = true) := by
  refine ⟨fun hge => ⟨?_, stepOp_acquire_of_ge hge⟩, fun hlt => ?_, fun hN hv => ?_⟩
  · simp [acquire_or_reject, hge]
  · simp [acquire_or_reject, not_le.mpr hlt]
  · exact admissionStates_bounded maxC ops 0 le_rfl hN hv

/-- Witness for C1 at `N = 1`: a saturated counter rejects and stays at 1,
an idle counter admits, and the trace acquire-acquire-release-acquire from
0 stays within `[0, 1]`. -/
theorem admission_controller_bounds_witness :
    (acquire_or_reject 1 1 = Except.error AdmissionError.serviceBusy ∧
      stepOp 1 1 AdmissionOp.acquire = 1) ∧
    acquire_or_reject 1 0 = Except.ok 1 ∧
    boundedBy 1 (admissionStates 1 0
      [AdmissionOp.acquire, AdmissionOp.acquire, AdmissionOp.release,
       AdmissionOp.acquire]) = true := by
  obtain ⟨h1, h2, h3⟩ := admission_controller_bounds 1 1
    [AdmissionOp.acquire, AdmissionOp.acquire, AdmissionOp.release, AdmissionOp.acquire]
  refine ⟨h1 (by decide), ?_, h3 (by decide) (by decide)⟩
  obtain ⟨_, h2, _⟩ := admission_controller_bounds 1 0 []
  exact h2 (by decide)

/-- C2: after a successful acquisition, the `finally` block releases the
slot exactly once on every exit path — normal completion, an exception from
the body, or cancellation — so the final active count equals the pre-entry
value. -/
theorem admission_release_on_every_exit (maxC c : Int) (outcome : BodyOutcome)
    (h : c < maxC) :
    run_admitted maxC c outcome = Except.ok (c, outcome) := by
  simp [run_admitted, acquire_or_reject, not_le.mpr h, releaseSlot]

/-- Witness for C2 at `N = 1`, count 0, for all three exit paths. -/
theorem admission_release_on_every_exit_witness :
    run_admitted 1 0 BodyOutcome.completed = Except.ok (0, BodyOutcome.completed) ∧
    run_admitted 1 0 BodyOutcome.raised = Except.ok (0, BodyOutcome.raised) ∧
    run_admitted 1 0 BodyOutcome.cancelled = Except.ok (0, BodyOutcome.cancelled) :=
  ⟨admission_release_on_every_exit 1 0 BodyOutcome.completed (by decide),
   admission_release_on_every_exit 1 0 BodyOutcome.raised (by decide),
   admission_release_on_every_exit 1 0 BodyOutcome.cancelled (by decide)⟩

/-- C3: the computed inference timeout equals
`B × n × (w×h / (512×512))` on a CUDA (accelerated) device and that value
times 30 otherwise; in particular `n=4`, `w=h=1024`, `B=60` yields 960
seconds accelerated and 28800 seconds otherwise. -/
theorem compute_timeout_formula (base : ℚ) (deviceType : String) (w h n : ℕ) :
    compute_timeout base "cuda" w h n =
      base * n * ((w * h : ℕ) / (512 * 512 : ℚ)) ∧
    (deviceType ≠ "cuda" →
      compute_timeout base deviceType w h n =
        base * n * ((w * h : ℕ) / (512 * 512 : ℚ)) * 30) ∧
    compute_timeout 60 "cuda" 1024 1024 4 = 960 ∧
    compute_timeout 60 "cpu" 1024 1024 4 = 28800 := by
  refine ⟨?_, fun hd => ?_, ?_, ?_⟩
  · rw [compute_timeout_eq, if_pos rfl, mul_one]
  · rw [compute_timeout_eq, if_neg hd]
  · rw [compute_timeout_eq, if_pos rfl]; norm_num
  · rw [compute_timeout_eq, if_neg (by decide)]; norm_num

/-- Witness for C3: the non-CUDA branch at the scenario-C input. -/
theorem compute_timeout_formula_witness :
    compute_timeout 60 "cpu" 1024 1024 4 =
      60 * (4 : ℕ) * (((1024 * 1024 : ℕ)) / (512 * 512 : ℚ)) * 30 :=
  (compute_timeout_formula 60 "cpu" 1024 1024 4).2.1 (by decide)

/-- C10: for a positive per-unit base the computed timeout is monotonically
nondecreasing in each of `number_of_images`, `image_width` and
`image_height`, and for identical arguments the timeout on a non-CUDA
device is exactly 30 times the timeout on the CUDA device. -/
theorem compute_timeout_monotone_and_cpu_ratio (base : ℚ) (deviceType : String)
    (w h n w1 h1 n1 : ℕ) (hbase : 0 < base) :
    (n ≤ n1 → compute_timeout base deviceType w h n ≤ compute_timeout base deviceType w h n1) ∧
    (w ≤ w1 → compute_timeout base deviceType w h n ≤ compute_timeout base deviceType w1 h n) ∧
    (h ≤ h1 → compute_timeout base deviceType w h n ≤ compute_timeout base deviceType w h1 n) ∧
    (deviceType ≠ "cuda" →
      compute_timeout base deviceType w h n = 30 * compute_timeout base "cuda" w h n) := by
  have hK : (0 : ℚ) < 512 * 512 := by norm_num
  have hmul : (0 : ℚ) ≤ (if deviceType = "cuda" then (1 : ℚ) else 30) := by
    by_cases hd : deviceType = "cuda" <;> simp [hd]
  have hbn : (0 : ℚ) ≤ base * n := mul_nonneg hbase.le (Nat.cast_nonneg n)
  refine ⟨fun hn => ?_, fun hw => ?_, fun hh => ?_, fun hd => ?_⟩
  · rw [compute_timeout_eq, compute_timeout_eq]
    refine mul_le_mul_of_nonneg_right (mul_le_mul_of_nonneg_right ?_ (by positivity)) hmul
    exact mul_le_mul_of_nonneg_left (by exact_mod_cast hn) hbase.le
  · rw [compute_timeout_eq, compute_timeout_eq]
    refine mul_le_mul_of_nonneg_right (mul_le_mul_of_nonneg_left ?_ hbn) hmul
    refine (div_le_div_iff_of_pos_right hK).mpr ?_
    exact_mod_cast Nat.mul_le_mul_right h hw
  · rw [compute_timeout_eq, compute_timeout_eq]
    refine mul_le_mul_of_nonneg_right (mul_le_mul_of_nonneg_left ?_ hbn) hmul
    refine (div_le_div_iff_of_pos_right hK).mpr ?_
    exact_mod_cast Nat.mul_le_mul_left w hh
  · rw [compute_timeout_eq, compute_timeout_eq, if_neg hd, if_pos rfl]
    ring

/-- Witness for C10 at `B = 60`, device `"cpu"`: monotone steps
`n : 1 ≤ 2`, `w : 512 ≤ 1024`, `h : 512 ≤ 768`, and the 30× ratio. -/
theorem compute_timeout_monotone_and_cpu_ratio_witness :
    (compute_timeout 60 "cpu" 512 512 1 ≤ compute_timeout 60 "cpu" 512 512 2) ∧
    (compute_timeout 60 "cpu" 512 512 1 ≤ compute_timeout 60 "cpu" 1024 512 1) ∧
    (compute_timeout 60 "cpu" 512 512 1 ≤ compute_timeout 60 "cpu" 512 768 1) ∧
    compute_timeout 60 "cpu" 512 512 1 = 30 * compute_timeout 60 "cuda" 512 512 1 := by
  obtain ⟨h1, h2, h3, h4⟩ :=
    compute_timeout_monotone_and_cpu_ratio 60 "cpu" 512 512 1 1024 768 2 (by norm_num)
  exact ⟨h1 (by decide), h2 (by decide), h3 (by decide), h4 (by decide)⟩

/-! ## Supporting lemmas for the metrics collector -/

theorem dequeAppend_length (cap : ℕ) (xs : List ℚ) (x : ℚ) :
    (dequeAppend cap xs x).length = min (xs.length + 1) cap := by
  simp [dequeAppend]
  omega

theorem foldl_dequeAppend_eq (cap : ℕ) :
    ∀ (samples acc : List ℚ), acc.length ≤ cap →
      samples.foldl (dequeAppend cap) acc =
        (acc ++ samples).drop (acc.length + samples.length - cap)
  | [], acc, hacc => by
    simp [Nat.sub_eq_zero_of_le hacc]
  | x :: rest, acc, hacc => by
    have hstep : (dequeAppend cap acc x).length ≤ cap := by
      rw [dequeAppend_length]; omega
    rw [List.foldl_cons, foldl_dequeAppend_eq cap rest _ hstep, dequeAppend_length]
    simp only [dequeAppend]
    rw [← List.drop_append_of_le_length (by simp [Nat.sub_le]),
      List.drop_drop, List.append_assoc, List.singleton_append]
    congr 1
    simp only [List.length_cons]
    omega

theorem foldl_record_key (cap : ℕ) (key : String) :
    ∀ (records : List (String × ℚ)) (w : String → List ℚ),
      (records.foldl (fun w1 r => record_latency_sample cap w1 r.1 r.2) w) key =
        ((records.filter fun r => r.1 = key).map Prod.snd).foldl (dequeAppend cap) (w key)
  | [], _ => by simp
  | r :: rest, w => by
    rw [List.foldl_cons, foldl_record_key cap key rest _]
    by_cases hk : r.1 = key
    · simp [hk, record_latency_sample, List.filter_cons]
    · have hk2 : ¬key = r.1 := fun h => hk h.symm
      simp [hk, hk2, record_latency_sample, List.filter_cons]

/-- C4: a latency window never holds more than its capacity (default
10,000) samples, and recording `k` samples for a key into a window of
capacity `cap < k` leaves exactly `cap` surviving samples — the `cap` most
recently recorded values for that key, in order (FIFO eviction of the
oldest). -/
theorem latency_window_fifo (cap : ℕ) (records : List (String × ℚ)) (key : String) :
    DEFAULT_MAXIMUM_OBSERVATIONS_PER_ENDPOINT = 10000 ∧
    (record_all cap records key).length ≤ cap ∧
    (cap < ((records.filter fun r => r.1 = key).map Prod.snd).length →
      record_all cap records key =
        ((records.filter fun r => r.1 = key).map Prod.snd).drop
          (((records.filter fun r => r.1 = key).map Prod.snd).length - cap) ∧
      (record_all cap records key).length = cap) := by
  have hkey : record_all cap records key =
      ((records.filter fun r => r.1 = key).map Prod.snd).foldl (dequeAppend cap) [] := by
    simpa using foldl_record_key cap key records fun _ => []
  have hfold :
      ((records.filter fun r => r.1 = key).map Prod.snd).foldl (dequeAppend cap) [] =
        ((records.filter fun r => r.1 = key).map Prod.snd).drop
          (((records.filter fun r => r.1 = key).map Prod.snd).length - cap) := by
    simpa using
      foldl_dequeAppend_eq cap ((records.filter fun r => r.1 = key).map Prod.snd) []
        (Nat.zero_le cap)
  refine ⟨rfl, ?_, fun hlt => ⟨hkey.trans hfold, ?_⟩⟩
  · rw [hkey, hfold, List.length_drop]; omega
  · rw [hkey, hfold, List.length_drop]; omega

/-- Witness for C4: capacity 2, three samples recorded for `"POST /i"`
interleaved with one for another key; the window keeps the two most recent
values `[2, 3]`. -/
theorem latency_window_fifo_witness :
    (record_all 2 [("POST /i", (1 : ℚ)), ("POST /i", 2), ("GET /h", 9), ("POST /i", 3)]
        "POST /i").length ≤ 2 ∧
    record_all 2 [("POST /i", (1 : ℚ)), ("POST /i", 2), ("GET /h", 9), ("POST /i", 3)]
        "POST /i" = [(2 : ℚ), 3] ∧
    (record_all 2 [("POST /i", (1 : ℚ)), ("POST /i", 2), ("GET /h", 9), ("POST /i", 3)]
        "POST /i").length = 2 := by
  obtain ⟨-, h2, h3⟩ := latency_window_fifo 2
    [("POST /i", (1 : ℚ)), ("POST /i", 2), ("GET /h", 9), ("POST /i", 3)] "POST /i"
  obtain ⟨h4, h5⟩ := h3 (by decide)
  exact ⟨h2, h4.trans (by decide), h5⟩

theorem percentile_index_eq_floor (n : ℕ) :
    percentile_95_index n = min (Nat.floor ((19 : ℚ) / 20 * n)) (n - 1) := by
  have hfl : Nat.floor (((19 * n : ℕ) : ℚ) / ((20 : ℕ) : ℚ)) = 19 * n / 20 :=
    Nat.floor_div_eq_div (19 * n) 20
  have harg : (19 : ℚ) / 20 * n = ((19 * n : ℕ) : ℚ) / ((20 : ℕ) : ℚ) := by
    push_cast
    ring
  rw [percentile_95_index, harg, hfl]

/-- C5 as amended: `snapshot()` reports as the 95th percentile the element
at index `min(⌊0.95 × n⌋, n − 1)` of the sorted sample array, rounded to
one decimal place like every reported statistic; for a single-sample window
the reported minimum, maximum, mean and 95th percentile are all identical
and equal the sample rounded to one decimal place (hence the sample itself
whenever it carries at most one decimal). -/
theorem snapshot_percentile_and_single_sample (obs : List ℚ) (x : ℚ)
    (hne : obs ≠ []) :
    (snapshot_latency_stats obs).map
        EndpointLatencyStats.ninety_fifth_percentile_milliseconds =
      some (pyRound1 ((obs.insertionSort (· ≤ ·)).getD
        (min (Nat.floor ((19 : ℚ) / 20 * obs.length)) (obs.length - 1)) 0)) ∧
    snapshot_latency_stats [x] =
      some ⟨1, pyRound1 x, pyRound1 x, pyRound1 x, pyRound1 x⟩ := by
  constructor
  · cases obs with
    | nil => exact absurd rfl hne
    | cons o os =>
      rw [← percentile_index_eq_floor]
      simp [snapshot_latency_stats]
  · simp [snapshot_latency_stats, List.insertionSort, List.orderedInsert,
      percentile_95_index]

/-- Witness for C5 (amended) at the window `[3, 1, 2]` and the single
sample `5/2`. -/
theorem snapshot_percentile_and_single_sample_witness :
    (snapshot_latency_stats [(3 : ℚ), 1, 2]).map
        EndpointLatencyStats.ninety_fifth_percentile_milliseconds =
      some (pyRound1 ((([(3 : ℚ), 1, 2]).insertionSort (· ≤ ·)).getD
        (min (Nat.floor ((19 : ℚ) / 20 * ([(3 : ℚ), 1, 2] : List ℚ).length))
          (([(3 : ℚ), 1, 2] : List ℚ).length - 1)) 0)) ∧
    snapshot_latency_stats [(5 / 2 : ℚ)] =
      some ⟨1, pyRound1 (5 / 2), pyRound1 (5 / 2), pyRound1 (5 / 2), pyRound1 (5 / 2)⟩ :=
  snapshot_percentile_and_single_sample [(3 : ℚ), 1, 2] (5 / 2) (by decide)

/-- Counterexample to C5 as literally stated: for the single-sample window
`[1/4]` the reported minimum (like every other reported statistic) is the
rounded value `0.2`, not the sample `0.25`. -/
theorem snapshot_single_sample_counterexample :
    (snapshot_latency_stats [(1 / 4 : ℚ)]).map
        EndpointLatencyStats.minimum_milliseconds ≠ some (1 / 4 : ℚ) := by
  have harg : ((4 : ℚ)⁻¹) * 10 = 5 / 2 := by norm_num
  have hfloor : Int.floor ((5 : ℚ) / 2) = 2 := by
    rw [Int.floor_eq_iff]
    norm_num
  have hround : pyRound1 ((4 : ℚ)⁻¹) = 5⁻¹ := by
    rw [pyRound1, harg, roundHalfEvenInt, hfloor]
    norm_num
  have hmain : (snapshot_latency_stats [(1 / 4 : ℚ)]).map
      EndpointLatencyStats.minimum_milliseconds = some (1 / 5 : ℚ) := by
    simp [snapshot_latency_stats, List.insertionSort, List.orderedInsert, hround]
  rw [hmain]
  intro hcontra
  have h15 := Option.some.inj hcontra
  norm_num at h15

/-! ## Supporting lemmas for the middleware layers -/

theorem guard_receive_of_sum_exceeds (limit : Int) :
    ∀ (chunks : List ℕ) (accumulated : Int), accumulated ≤ limit →
      limit < accumulated + (chunks.sum : ℤ) →
      ∃ ds, guard_receive limit accumulated chunks = ⟨ds ++ [0], true⟩
  | [], accumulated, hacc, hsum => by
    simp at hsum
    omega
  | chunk :: rest, accumulated, hacc, hsum => by
    by_cases hc : limit < accumulated + chunk
    · exact ⟨[], by simp [guard_receive, hc]⟩
    · have hsum1 : limit < accumulated + chunk + (rest.sum : ℤ) := by
        rw [List.sum_cons, Nat.cast_add] at hsum
        omega
      obtain ⟨ds, hds⟩ :=
        guard_receive_of_sum_exceeds limit rest (accumulated + chunk) (not_lt.mp hc) hsum1
      exact ⟨chunk :: ds, by simp [guard_receive, hc, hds]⟩

/-- C6: a declared content length that is present, numeric and strictly
above the ceiling makes the payload guard emit the 413
`payload_too_large` response immediately, with zero calls into the wrapped
body reader; a present but non-numeric declared length parses to `None`,
and with no parsed declared length the call behaves exactly as with no
headers at all — falling through to the streaming guard without raising. -/
theorem payload_guard_fast_path (limit : Int) (correlation_id : String)
    (headers : List (String × String)) (chunks : List ℕ) (app : AsgiApp)
    (n : Int) (name value : String) (rest : List (String × String)) :
    (extract_content_length_from_headers headers = some n → limit < n →
      payload_middleware_call limit correlation_id headers chunks app =
        Except.ok ([AsgiMessage.responseStart 413 none,
          AsgiMessage.responseBody (some ⟨"payload_too_large", correlation_id⟩)], 0)) ∧
    (asciiLower name = "content-length" → parse_python_int value = none →
      extract_content_length_from_headers ((name, value) :: rest) = none) ∧
    (extract_content_length_from_headers headers = none →
      payload_middleware_call limit correlation_id headers chunks app =
        payload_middleware_call limit correlation_id [] chunks app) := by
  refine ⟨fun hsome hgt => ?_, fun hname hval => ?_, fun hnone => ?_⟩
  · simp [payload_middleware_call, hsome, declaredLengthExceeds, hgt,
      payloadTooLargeResponse]
  · simp [extract_content_length_from_headers, hname, hval]
  · simp [payload_middleware_call, hnone, extract_content_length_from_headers,
      declaredLengthExceeds]

/-- Witness for C6 at the default 1 MiB ceiling: a declared length of
2,000,000 is rejected with zero reads; `"abc"` parses to `None` and the
call equals the headerless call. -/
theorem payload_guard_fast_path_witness :
    payload_middleware_call 1048576 "cid" [("Content-Length", "2000000")] [5]
        alwaysRaisingApp =
      Except.ok ([AsgiMessage.responseStart 413 none,
        AsgiMessage.responseBody (some ⟨"payload_too_large", "cid"⟩)], 0) ∧
    extract_content_length_from_headers [("Content-Length", "abc")] = none ∧
    payload_middleware_call 1048576 "cid" [("Content-Length", "abc")] [5]
        alwaysRaisingApp =
      payload_middleware_call 1048576 "cid" [] [5] alwaysRaisingApp := by
  obtain ⟨h1, -, -⟩ := payload_guard_fast_path 1048576 "cid"
    [("Content-Length", "2000000")] [5] alwaysRaisingApp 2000000 "" "" []
  obtain ⟨-, h2, h3⟩ := payload_guard_fast_path 1048576 "cid"
    [("Content-Length", "abc")] [5] alwaysRaisingApp 0 "Content-Length" "abc" []
  have h2a := h2 (by decide) (by decide)
  exact ⟨h1 (by decide) (by decide), h2a, h3 h2a⟩

/-- C7: when the accumulated body bytes exceed the ceiling, the streaming
guard trips and the body delivered downstream ends in a zero-length final
chunk; if the downstream application then raises, the guard emits the 413
`payload_too_large` response instead of propagating the failure, and if
the application completes with its own messages the guard adds no second
response. -/
theorem payload_guard_streaming (limit : Int) (correlation_id : String)
    (chunks : List ℕ) (app : AsgiApp) (sent : List AsgiMessage)
    (hlim : 0 ≤ limit) (hsum : limit < (chunks.sum : ℤ)) :
    (guard_receive limit 0 chunks).exceeded = true ∧
    (guard_receive limit 0 chunks).delivered.getLastD 1 = 0 ∧
    (app (guard_receive limit 0 chunks).delivered = Except.error () →
      payload_middleware_call limit correlation_id [] chunks app =
        Except.ok (payloadTooLargeResponse correlation_id,
          (guard_receive limit 0 chunks).delivered.length)) ∧
    (app (guard_receive limit 0 chunks).delivered = Except.ok sent →
      payload_middleware_call limit correlation_id [] chunks app =
        Except.ok (sent, (guard_receive limit 0 chunks).delivered.length)) := by
  obtain ⟨ds, hds⟩ := guard_receive_of_sum_exceeds limit chunks 0 hlim (by simpa using hsum)
  refine ⟨by rw [hds], by rw [hds]; simp, fun herr => ?_, fun hok => ?_⟩
  · rw [payload_middleware_call]
    simp only [extract_content_length_from_headers, declaredLengthExceeds]
    rw [if_neg (by simp), herr, hds]
    simp
  · rw [payload_middleware_call]
    simp only [extract_content_length_from_headers, declaredLengthExceeds]
    rw [if_neg (by simp), hok]

/-- Witness for C7 with ceiling 3 and chunks of 2 then 5 bytes: the guard
trips, delivers `[2, 0]`, converts a downstream failure into the 413
response, and passes a downstream 200 response through untouched. -/
theorem payload_guard_streaming_witness :
    (guard_receive 3 0 [2, 5]).exceeded = true ∧
    (guard_receive 3 0 [2, 5]).delivered.getLastD 1 = 0 ∧
    payload_middleware_call 3 "cid" [] [2, 5] alwaysRaisingApp =
      Except.ok (payloadTooLargeResponse "cid",
        (guard_receive 3 0 [2, 5]).delivered.length) ∧
    payload_middleware_call 3 "cid" [] [2, 5] fixedResponseApp =
      Except.ok ([AsgiMessage.responseStart 200 none, AsgiMessage.responseBody none],
        (guard_receive 3 0 [2, 5]).delivered.length) := by
  obtain ⟨h1, h2, h3, -⟩ := payload_guard_streaming 3 "cid" [2, 5] alwaysRaisingApp []
    (by decide) (by decide)
  obtain ⟨-, -, -, h4⟩ := payload_guard_streaming 3 "cid" [2, 5] fixedResponseApp
    [AsgiMessage.responseStart 200 none, AsgiMessage.responseBody none]
    (by decide) (by decide)
  exact ⟨h1, h2, h3 rfl, h4 rfl⟩

/-- C8: when the deadline elapses and no response head has been sent yet,
the deadline guard emits exactly one 504 response with code
`request_timeout` carrying the correlation identifier; when a head was
already sent it emits nothing, so no second response head ever goes out. -/
theorem deadline_guard_504 (correlation_id : String) (innerSent : List AsgiMessage) :
    (countResponseStarts innerSent = 0 →
      timeout_middleware_call correlation_id innerSent true =
        innerSent ++ [AsgiMessage.responseStart 504 none,
          AsgiMessage.responseBody (some ⟨"request_timeout", correlation_id⟩)] ∧
      countResponseStarts (timeout_middleware_call correlation_id innerSent true) = 1) ∧
    (0 < countResponseStarts innerSent →
      timeout_middleware_call correlation_id innerSent true = innerSent ∧
      countResponseStarts (timeout_middleware_call correlation_id innerSent true) =
        countResponseStarts innerSent) := by
  constructor
  · intro hzero
    have hz : innerSent.countP isResponseStart = 0 := hzero
    have hcall : timeout_middleware_call correlation_id innerSent true =
        innerSent ++ requestTimeoutResponse correlation_id := by
      simp [timeout_middleware_call, hzero]
    refine ⟨by rw [hcall]; rfl, ?_⟩
    rw [hcall]
    show (innerSent ++ requestTimeoutResponse correlation_id).countP isResponseStart = 1
    rw [List.countP_append, hz]
    rfl
  · intro hpos
    have hcall : timeout_middleware_call correlation_id innerSent true = innerSent := by
      simp [timeout_middleware_call, hpos]
    exact ⟨hcall, by rw [hcall]⟩

/-- Witness for C8: timeout before any head yields exactly the 504
response; timeout after a 200 head was sent adds nothing. -/
theorem deadline_guard_504_witness :
    (timeout_middleware_call "cid" [] true =
      [AsgiMessage.responseStart 504 none,
       AsgiMessage.responseBody (some ⟨"request_timeout", "cid"⟩)] ∧
     countResponseStarts (timeout_middleware_call "cid" [] true) = 1) ∧
    (timeout_middleware_call "cid" [AsgiMessage.responseStart 200 none] true =
      [AsgiMessage.responseStart 200 none] ∧
     countResponseStarts
        (timeout_middleware_call "cid" [AsgiMessage.responseStart 200 none] true) =
       countResponseStarts [AsgiMessage.responseStart 200 none]) := by
  obtain ⟨hA, -⟩ := deadline_guard_504 "cid" []
  obtain ⟨-, hB⟩ := deadline_guard_504 "cid" [AsgiMessage.responseStart 200 none]
  exact ⟨hA (by decide), hB (by decide)⟩

/-- C9: an exception escaping the wrapped chain is converted into a single
500 response whose body carries code `internal_server_error` and the
correlation identifier; and on every exit path — completion or escaped
exception — the in-flight counter nets back to its pre-entry value and
`(method, path, final_status, duration)` is recorded exactly once. -/
theorem correlation_guard_backstop (correlation_id method path : String)
    (duration_ms : ℚ) (in_flight_before : Int)
    (inner : Except (List AsgiMessage) (List AsgiMessage)) :
    (correlation_middleware_call correlation_id method path duration_ms
        in_flight_before (Except.error [])).sent =
      [AsgiMessage.responseStart 500 (some correlation_id),
       AsgiMessage.responseBody (some ⟨"internal_server_error", correlation_id⟩)] ∧
    countResponseStarts (correlation_middleware_call correlation_id method path
        duration_ms in_flight_before (Except.error [])).sent = 1 ∧
    (correlation_middleware_call correlation_id method path duration_ms
        in_flight_before inner).metricsRecords =
      [(method, path,
        (correlation_middleware_call correlation_id method path duration_ms
          in_flight_before inner).response_status, duration_ms)] ∧
    (correlation_middleware_call correlation_id method path duration_ms
        in_flight_before inner).in_flight_after = in_flight_before := by
  refine ⟨?_, ?_, ?_, ?_⟩
  · simp [correlation_middleware_call, internalServerErrorResponse]
  · simp [correlation_middleware_call, internalServerErrorResponse,
      countResponseStarts, List.countP_cons, isResponseStart]
  · cases inner <;> simp [correlation_middleware_call]
  · cases inner <;> simp [correlation_middleware_call]

end TextToImage
